import Mathlib

/-!
Verification of the semaphore-sms Python client (src/semaphore_sms) against
its natural-language specification.  The Python modules client.py,
exceptions.py and http.py are shallowly embedded below: JSON bodies become an
inductive `Json` type with Python truthiness, the exception classes of
exceptions.py become constructors of `SemError`, raising becomes the
`PyResult` sum, dictionaries become association lists with last-write-wins
update (`dictSet`), and the network becomes an explicit oracle (`World`)
together with the list of issued calls.
-/

namespace SemaphoreSms

/-- JSON values as produced by `response.json()`.  Numbers are modelled as
integers (the client never computes with them). -/
inductive Json where
  | null
  | str (s : String)
  | num (n : Int)
  | bool (b : Bool)
  | arr (elems : List Json)
  | obj (fields : List (String × Json))

/-- Python truthiness (`if x:`) restricted to the JSON values above:
`None`, `''`, `0`, `False`, `[]` and `{}` are falsy. -/
def Json.truthy : Json → Bool
  | .null => false
  | .str s => !(s == "")
  | .num n => !(n == 0)
  | .bool b => b
  | .arr elems => !elems.isEmpty
  | .obj fields => !fields.isEmpty

/-- `x is None` test used by the parameter filters in `get`/`post`. -/
def Json.isNull : Json → Bool
  | .null => true
  | _ => false

/-- The exception classes of exceptions.py, one constructor per class.
client.py only ever raises `semaphoreException`; the other constructors
mirror the subclasses the module defines and documents. -/
inductive SemError where
  | semaphoreException (message : String)
  | authenticationError (message : String)
  | validationError (message : String)
  | invalidPhoneNumberError (recipients : List String) (message : String)
  | emptyMessageError (message : String)
  | apiError (status_code : Nat) (response_text : String)
  | authorizationError (status_code : Nat) (response_text : String)
  | rateLimitError (status_code : Nat) (response_text : String) (retry_after : Option Int)
  | serverError (status_code : Nat) (response_text : String)
  | networkError (message : String) (original_exception : Option String)

/-- Result of running a piece of Python code: a value, a raised
`SemaphoreException` (or subclass), or a raised non-Semaphore exception
(e.g. a `requests` transport exception) propagating uncaught. -/
inductive PyResult (α : Type) where
  | ok (val : α)
  | raisedSem (e : SemError)
  | raisedOther (exn : String)

/-- An HTTP response as seen by `SemaphoreClient.request` (the `HttpResponse`
mocker in http.py: `ok` is `status_code < 400`). -/
structure HttpResponse where
  status_code : Nat
  body : Json
  text : String

/-- Outcome of one transport-level request: either a response or a raised
transport exception (connection failure, timeout, ...). -/
inductive HttpOutcome where
  | response (r : HttpResponse)
  | raised (exn : String)

/-- `SemaphoreClient.request` (client.py lines 37-73): return `response.json()`
when `response.ok`, otherwise raise the base
`SemaphoreException(f'Request failed: HTTP {status_code} {text}')`.
Transport exceptions are not caught and propagate unchanged. -/
def SemaphoreClient.request (outcome : HttpOutcome) : PyResult Json :=
  match outcome with
  | .raised exn => .raisedOther exn
  | .response r =>
      if r.status_code < 400 then .ok r.body
      else .raisedSem (.semaphoreException
        ("Request failed: HTTP " ++ toString r.status_code ++ " " ++ r.text))

/-! ## Phone number validation (client.py lines 97-102) -/

/-- The whitespace characters stripped by Python `str.strip()` (ASCII part). -/
def isPySpace (c : Char) : Bool :=
  c == ' ' || c == '\t' || c == '\n' || c == '\r' || c == '\x0b' || c == '\x0c'

/-- `''.join(number.split('-'))`: delete every hyphen. -/
def removeHyphens (s : List Char) : List Char :=
  s.filter (fun c => !(c == '-'))

/-- `str.strip()` on a character list. -/
def pyStripList (s : List Char) : List Char :=
  ((s.dropWhile isPySpace).reverse.dropWhile isPySpace).reverse

/-- `str.strip()`. -/
def pyStrip (s : String) : String :=
  String.mk (pyStripList s.toList)

/-- Match a literal character sequence at the front, return the rest. -/
def matchLit : List Char → List Char → Option (List Char)
  | [], s => some s
  | c :: cs, d :: s => if d == c then matchLit cs s else none
  | _ :: _, [] => none

/-- `\d{9}$`: exactly nine decimal digits remain. -/
def matchNineDigits (rest : List Char) : Bool :=
  rest.length == 9 && rest.all Char.isDigit

/-- One alternative of the anchored pattern: a literal prefix followed by
`\d{9}$`. -/
def matchBranch (pfx : List Char) (s : List Char) : Bool :=
  match matchLit pfx s with
  | some rest => matchNineDigits rest
  | none => false

/-- `re.match(r'^(\+?639|09)\d{9}$', s)` viewed as a Bool: the three
alternatives `+639`, `639`, `09`, each followed by nine digits and the end of
the string. -/
def reMatchPhone (s : List Char) : Bool :=
  matchBranch ['+', '6', '3', '9'] s || matchBranch ['6', '3', '9'] s ||
    matchBranch ['0', '9'] s

/-- `SemaphoreClient.validate_phone_format`: strip hyphens and surrounding
whitespace, then match the anchored pattern. -/
def SemaphoreClient.validate_phone_format (number : String) : Bool :=
  reMatchPhone (pyStripList (removeHyphens number.toList))

/-! ## Client state, construction and dispatch -/

/-- The mutable state of a `SemaphoreClient` instance.  `_account` is the
account snapshot cache; Python `None` is represented as `Json.null`. -/
structure SemaphoreClient where
  api_key : String
  sender_name : Option String
  _account : Json

/-- One issued network request (method, path segment, outgoing parameters:
the query string of a GET or the body of a POST). -/
structure NetCall where
  method : String
  uri : String
  params : List (String × Json)

/-- The network: given the history of issued calls and the current call,
produce the transport outcome. -/
structure World where
  oracle : List NetCall → NetCall → HttpOutcome

/-- Issue one call: record it and interpret the outcome with
`SemaphoreClient.request`. -/
def World.dispatch (w : World) (calls : List NetCall) (call : NetCall) :
    PyResult Json × List NetCall :=
  (SemaphoreClient.request (w.oracle calls call), calls ++ [call])

/-- Python `a or b` on optional strings: `a` unless it is `None` or empty. -/
def pyOrStr : Option String → Option String → Option String
  | some s, b => if s == "" then b else some s
  | none, b => b

/-- `if x:` on an optional string. -/
def truthyOptStr : Option String → Bool
  | none => false
  | some s => !(s == "")

/-- The environment mapping consulted for fallback credentials. -/
structure Environment where
  semaphore_sms_apikey : Option String
  semaphore_sms_sendername : Option String

/-- `SemaphoreClient.__init__` (client.py lines 14-35): explicit argument
`or` environment value for both credentials; raise the base
`SemaphoreException` when the resolved API key is falsy.  No network call is
made. -/
def SemaphoreClient.init (api_key sender_name : Option String)
    (environment : Environment) : PyResult SemaphoreClient :=
  let key := pyOrStr api_key environment.semaphore_sms_apikey
  let sname := pyOrStr sender_name environment.semaphore_sms_sendername
  if truthyOptStr key then
    .ok { api_key := key.getD "", sender_name := sname, _account := Json.null }
  else
    .raisedSem (.semaphoreException
      "Credentials are required to create a SemaphoreClient")

/-- Python dict update `{**d, k: v}` restricted to one key: replace the value
in place when the key exists (insertion order is kept), otherwise append. -/
def dictSet (d : List (String × Json)) (k : String) (v : Json) :
    List (String × Json) :=
  if d.any (fun p => p.1 == k) then
    d.map (fun p => if p.1 == k then (k, v) else p)
  else d ++ [(k, v)]

/-- Dictionary lookup. -/
def dictGet (d : List (String × Json)) (k : String) : Option Json :=
  (d.find? (fun p => p.1 == k)).map Prod.snd

/-- `{k: v for k, v in d.items() if v is not None}`. -/
def dropNullValues (d : List (String × Json)) : List (String × Json) :=
  d.filter (fun p => !(Json.isNull p.2))

/-- `SemaphoreClient.get` (client.py lines 75-82): add `apikey` as query
param, drop `None` values, dispatch a GET. -/
def SemaphoreClient.get (c : SemaphoreClient) (w : World) (calls : List NetCall)
    (uri : String) (params : List (String × Json)) :
    PyResult Json × List NetCall :=
  let ps := dropNullValues (dictSet params "apikey" (Json.str c.api_key))
  w.dispatch calls { method := "get", uri := uri, params := ps }

/-- `Optional[str]` to a request value. -/
def optStrJson : Option String → Json
  | none => Json.null
  | some s => Json.str s

/-- `SemaphoreClient.post` (client.py lines 84-95): add `apikey` and
`sendername` (the client attribute — written after `**data`, so it overrides
any per-call value already in `data`), drop `None` values, clear the account
cache, dispatch a POST.  The cache is cleared even when the request raises. -/
def SemaphoreClient.post (c : SemaphoreClient) (w : World) (calls : List NetCall)
    (uri : String) (data : List (String × Json)) :
    PyResult Json × SemaphoreClient × List NetCall :=
  let d := dropNullValues
    (dictSet (dictSet data "apikey" (Json.str c.api_key))
      "sendername" (optStrJson c.sender_name))
  let c' := { c with _account := Json.null }
  let r := w.dispatch calls { method := "post", uri := uri, params := d }
  (r.1, c', r.2)

/-- `','.join(recipients)`. -/
def commaJoin (recipients : List String) : String :=
  String.intercalate "," recipients

/-- `SemaphoreClient.send` (client.py lines 104-131): blank-message check,
phone-format check over all recipients, then POST to `messages`.  Both
validation failures raise the base `SemaphoreException` before any call. -/
def SemaphoreClient.send (c : SemaphoreClient) (w : World) (calls : List NetCall)
    (message : String) (recipients : List String) (sender_name : Option String) :
    PyResult Json × SemaphoreClient × List NetCall :=
  let sname := pyOrStr sender_name c.sender_name
  if pyStrip message == "" then
    (.raisedSem (.semaphoreException "Cannot send a blank message"), c, calls)
  else if !(recipients.all SemaphoreClient.validate_phone_format) then
    (.raisedSem (.semaphoreException
      "You supplied an invalid Philippine phone number in `recipients`"),
      c, calls)
  else
    c.post w calls "messages"
      [("message", Json.str message), ("sendername", optStrJson sname),
        ("number", Json.str (commaJoin recipients))]

/-- `SemaphoreClient.priority` (client.py lines 133-162): identical to
`send` except for the path segment. -/
def SemaphoreClient.priority (c : SemaphoreClient) (w : World)
    (calls : List NetCall) (message : String) (recipients : List String)
    (sender_name : Option String) :
    PyResult Json × SemaphoreClient × List NetCall :=
  let sname := pyOrStr sender_name c.sender_name
  if pyStrip message == "" then
    (.raisedSem (.semaphoreException "Cannot send a blank message"), c, calls)
  else if !(recipients.all SemaphoreClient.validate_phone_format) then
    (.raisedSem (.semaphoreException
      "You supplied an invalid Philippine phone number in `recipients`"),
      c, calls)
  else
    c.post w calls "priority"
      [("message", Json.str message), ("sendername", optStrJson sname),
        ("number", Json.str (commaJoin recipients))]

/-- `SemaphoreClient.otp` (client.py lines 164-193): phone-format check only
(no blank-message check), then POST to `otp` with optional message and code. -/
def SemaphoreClient.otp (c : SemaphoreClient) (w : World) (calls : List NetCall)
    (recipients : List String) (message : Option String)
    (sender_name : Option String) (code : Option Json) :
    PyResult Json × SemaphoreClient × List NetCall :=
  let sname := pyOrStr sender_name c.sender_name
  if !(recipients.all SemaphoreClient.validate_phone_format) then
    (.raisedSem (.semaphoreException
      "You supplied an invalid Philippine phone number in `recipients`"),
      c, calls)
  else
    c.post w calls "otp"
      [("message", optStrJson message), ("sendername", optStrJson sname),
        ("number", Json.str (commaJoin recipients)),
        ("code", code.getD Json.null)]

/-- Rendering of a value inside the `f'messages/{id}'` path segment. -/
def pyDisplay : Json → String
  | .null => "None"
  | .str s => s
  | .num n => toString n
  | .bool b => if b then "True" else "False"
  | .arr _ => ""
  | .obj _ => ""

/-- `SemaphoreClient.messages` (client.py lines 195-223): GET `messages` (or
`messages/<id>` when `id` is truthy) with the six optional filters; `network`
and `status` are lower-cased when truthy, falsy filters become `None`. -/
def SemaphoreClient.messages (c : SemaphoreClient) (w : World)
    (calls : List NetCall) (id page limit : Option Json)
    (network status start_date end_date : Option String) :
    PyResult Json × List NetCall :=
  let uri := match id with
    | some v => if v.truthy then "messages/" ++ pyDisplay v else "messages"
    | none => "messages"
  let params : List (String × Json) :=
    [("page", page.getD Json.null), ("limit", limit.getD Json.null),
     ("startDate", optStrJson start_date), ("endDate", optStrJson end_date),
     ("network", match network with
        | some n => if n == "" then Json.null else Json.str n.toLower
        | none => Json.null),
     ("status", match status with
        | some st => if st == "" then Json.null else Json.str st.toLower
        | none => Json.null)]
  c.get w calls uri params

/-- `SemaphoreClient.account` (client.py lines 273-282): return the cached
snapshot when it is truthy, otherwise GET `account`, store the parsed body
and return it.  When the fetch raises, the cache is left unchanged. -/
def SemaphoreClient.account (c : SemaphoreClient) (w : World)
    (calls : List NetCall) :
    PyResult Json × SemaphoreClient × List NetCall :=
  if c._account.truthy then (.ok c._account, c, calls)
  else
    let r := c.get w calls "account" []
    match r.1 with
    | .ok body => (.ok body, { c with _account := body }, r.2)
    | .raisedSem e => (.raisedSem e, c, r.2)
    | .raisedOther exn => (.raisedOther exn, c, r.2)

/-- Read the account accessor `n` times in a row, no writes in between. -/
def readAccountN (w : World) : Nat → SemaphoreClient → List NetCall →
    SemaphoreClient × List NetCall
  | 0, c, calls => (c, calls)
  | Nat.succ n, c, calls =>
      let r := SemaphoreClient.account c w calls
      readAccountN w n r.2.1 r.2.2

/-! ## The phone format described by the specification -/

/-- The acceptable shapes as the spec words them: exactly 11 digits starting
with `09`, or an optional leading `+` followed by `639` and 9 more digits. -/
def phoneSpecAccepts (s : List Char) : Prop :=
  (s.length = 11 ∧ s.all Char.isDigit = true ∧ s.take 2 = ['0', '9'])
  ∨ (s.length = 12 ∧ s.all Char.isDigit = true ∧ s.take 3 = ['6', '3', '9'])
  ∨ (s.length = 13 ∧ s.take 1 = ['+'] ∧ (s.drop 1).all Char.isDigit = true ∧
      (s.drop 1).take 3 = ['6', '3', '9'])

theorem matchLit_eq_some (pfx : List Char) :
    ∀ s r, matchLit pfx s = some r ↔ s = pfx ++ r := by
  induction pfx with
  | nil => intro s r; simp [matchLit]
  | cons c cs ih =>
      intro s r
      cases s with
      | nil => simp [matchLit]
      | cons d t =>
          by_cases h : d = c
          · subst h
            simp [matchLit, ih]
          · have hb : (d == c) = false := by simp [h]
            simp [matchLit, hb, h]

theorem matchBranch_eq_true (pfx s : List Char) :
    matchBranch pfx s = true ↔
      ∃ r, s = pfx ++ r ∧ r.length = 9 ∧ r.all Char.isDigit = true := by
  unfold matchBranch
  cases h : matchLit pfx s with
  | none =>
      simp only [Bool.false_eq_true, false_iff]
      rintro ⟨r, rfl, -, -⟩
      rw [(matchLit_eq_some pfx (pfx ++ r) r).mpr rfl] at h
      cases h
  | some rest =>
      have hs : s = pfx ++ rest := (matchLit_eq_some pfx s rest).mp h
      constructor
      · intro hm
        refine ⟨rest, hs, ?_, ?_⟩
        · have := (Bool.and_eq_true _ _).mp hm
          exact eq_of_beq this.1
        · exact ((Bool.and_eq_true _ _).mp hm).2
      · rintro ⟨r, hr, hlen, hdig⟩
        have : r = rest := List.append_cancel_left (hr.symm.trans hs)
        subst this
        show (r.length == 9 && r.all Char.isDigit) = true
        rw [hlen, hdig]
        decide

theorem branch09_iff (s : List Char) :
    matchBranch ['0', '9'] s = true ↔
      (s.length = 11 ∧ s.all Char.isDigit = true ∧ s.take 2 = ['0', '9']) := by
  rw [matchBranch_eq_true]
  constructor
  · rintro ⟨r, rfl, hlen, hdig⟩
    refine ⟨by simp [hlen], ?_, rfl⟩
    show ('0' :: '9' :: r).all Char.isDigit = true
    simp only [List.all_cons, Bool.and_eq_true]
    exact ⟨by decide, by decide, hdig⟩
  · rintro ⟨hlen, hall, htake⟩
    match s, htake with
    | a :: b :: t, htake =>
      simp only [List.take, List.cons.injEq] at htake
      obtain ⟨rfl, rfl, -⟩ := htake
      refine ⟨t, rfl, ?_, ?_⟩
      · simpa using hlen
      · simp only [List.all_cons, Bool.and_eq_true] at hall
        exact hall.2.2

theorem branch639_iff (s : List Char) :
    matchBranch ['6', '3', '9'] s = true ↔
      (s.length = 12 ∧ s.all Char.isDigit = true ∧ s.take 3 = ['6', '3', '9']) := by
  rw [matchBranch_eq_true]
  constructor
  · rintro ⟨r, rfl, hlen, hdig⟩
    refine ⟨by simp [hlen], ?_, rfl⟩
    show ('6' :: '3' :: '9' :: r).all Char.isDigit = true
    simp only [List.all_cons, Bool.and_eq_true]
    exact ⟨by decide, by decide, by decide, hdig⟩
  · rintro ⟨hlen, hall, htake⟩
    match s, htake with
    | a :: b :: c :: t, htake =>
      simp only [List.take, List.cons.injEq] at htake
      obtain ⟨rfl, rfl, rfl, -⟩ := htake
      refine ⟨t, rfl, ?_, ?_⟩
      · simpa using hlen
      · simp only [List.all_cons, Bool.and_eq_true] at hall
        exact hall.2.2.2

theorem branchPlus_iff (s : List Char) :
    matchBranch ['+', '6', '3', '9'] s = true ↔
      (s.length = 13 ∧ s.take 1 = ['+'] ∧ (s.drop 1).all Char.isDigit = true ∧
        (s.drop 1).take 3 = ['6', '3', '9']) := by
  rw [matchBranch_eq_true]
  constructor
  · rintro ⟨r, rfl, hlen, hdig⟩
    refine ⟨by simp [hlen], rfl, ?_, rfl⟩
    show ('6' :: '3' :: '9' :: r).all Char.isDigit = true
    simp only [List.all_cons, Bool.and_eq_true]
    exact ⟨by decide, by decide, by decide, hdig⟩
  · rintro ⟨hlen, htake1, hall, htake3⟩
    match s, htake1 with
    | p :: t, htake1 =>
      simp only [List.take, List.cons.injEq] at htake1
      obtain ⟨rfl, -⟩ := htake1
      simp only [List.drop] at hall htake3
      match t, htake3 with
      | a :: b :: c :: u, htake3 =>
        simp only [List.take, List.cons.injEq] at htake3
        obtain ⟨rfl, rfl, rfl, -⟩ := htake3
        refine ⟨u, rfl, ?_, ?_⟩
        · simpa using hlen
        · simp only [List.all_cons, Bool.and_eq_true] at hall
          exact hall.2.2.2

theorem reMatchPhone_iff (s : List Char) :
    reMatchPhone s = true ↔ phoneSpecAccepts s := by
  unfold reMatchPhone phoneSpecAccepts
  rw [Bool.or_eq_true, Bool.or_eq_true, branchPlus_iff, branch639_iff,
    branch09_iff]
  tauto

/-! ## Cache and dispatch lemmas -/

/-- The outcome is a success response whose JSON body is Python-truthy. -/
def truthyOutcome : HttpOutcome → Prop
  | .response r => r.status_code < 400 ∧ r.body.truthy = true
  | .raised _ => False

theorem account_step (w : World)
    (hw : ∀ h call, truthyOutcome (w.oracle h call))
    (c : SemaphoreClient) (calls : List NetCall) :
    ((SemaphoreClient.account c w calls).2.1)._account.truthy = true ∧
      (SemaphoreClient.account c w calls).2.2.length ≤ calls.length + 1 := by
  by_cases h : c._account.truthy = true
  · refine ⟨by simp [SemaphoreClient.account, h], by simp [SemaphoreClient.account, h]⟩
  · have hfalse : c._account.truthy = false := by
      cases hh : c._account.truthy
      · rfl
      · exact absurd hh h
    have hcall := hw calls
      ⟨"get", "account", dropNullValues (dictSet [] "apikey" (Json.str c.api_key))⟩
    cases ho : w.oracle calls
        ⟨"get", "account", dropNullValues (dictSet [] "apikey" (Json.str c.api_key))⟩ with
    | raised exn =>
        rw [ho] at hcall
        exact absurd hcall (by simp [truthyOutcome])
    | response r =>
        rw [ho] at hcall
        obtain ⟨hst, hbody⟩ := hcall
        constructor
        · simp [SemaphoreClient.account, hfalse, SemaphoreClient.get,
            World.dispatch, SemaphoreClient.request, ho, hst, hbody]
        · simp [SemaphoreClient.account, hfalse, SemaphoreClient.get,
            World.dispatch, SemaphoreClient.request, ho, hst]

theorem readAccountN_cached (w : World) (n : Nat) :
    ∀ (c : SemaphoreClient) (calls : List NetCall),
      c._account.truthy = true → readAccountN w n c calls = (c, calls) := by
  induction n with
  | zero => intro c calls _; rfl
  | succ n ih =>
      intro c calls h
      have hacc : SemaphoreClient.account c w calls = (.ok c._account, c, calls) := by
        simp [SemaphoreClient.account, h]
      show readAccountN w n (SemaphoreClient.account c w calls).2.1
        (SemaphoreClient.account c w calls).2.2 = (c, calls)
      rw [hacc]
      exact ih c calls h

theorem account_fetches_of_null (w : World) (c : SemaphoreClient)
    (calls : List NetCall) (h : c._account = Json.null) :
    (SemaphoreClient.account c w calls).2.2.length = calls.length + 1 := by
  have ht : c._account.truthy = false := by rw [h]; rfl
  simp only [SemaphoreClient.account, ht, Bool.false_eq_true, if_false]
  split <;> simp [SemaphoreClient.get, World.dispatch]

/-- The observable invalidation contract of a mutating operation: the
returned client has an empty cache, and an account read right after it
issues exactly one network call (whatever the network answers). -/
def invalidatedThenRefetches (w : World)
    (out : PyResult Json × SemaphoreClient × List NetCall) : Prop :=
  out.2.1._account = Json.null ∧
    (SemaphoreClient.account out.2.1 w out.2.2).2.2.length = out.2.2.length + 1

theorem post_invalidates_out (w : World) (c : SemaphoreClient)
    (calls : List NetCall) (uri : String) (data : List (String × Json)) :
    invalidatedThenRefetches w (c.post w calls uri data) :=
  ⟨rfl, account_fetches_of_null w _ _ rfl⟩

theorem send_eq_post (c : SemaphoreClient) (w : World) (calls : List NetCall)
    (message : String) (recipients : List String) (sn : Option String)
    (hmsg : (pyStrip message == "") = false)
    (hph : recipients.all SemaphoreClient.validate_phone_format = true) :
    c.send w calls message recipients sn
      = c.post w calls "messages"
          [("message", Json.str message),
            ("sendername", optStrJson (pyOrStr sn c.sender_name)),
            ("number", Json.str (commaJoin recipients))] := by
  simp [SemaphoreClient.send, hmsg, hph]

theorem priority_eq_post (c : SemaphoreClient) (w : World) (calls : List NetCall)
    (message : String) (recipients : List String) (sn : Option String)
    (hmsg : (pyStrip message == "") = false)
    (hph : recipients.all SemaphoreClient.validate_phone_format = true) :
    c.priority w calls message recipients sn
      = c.post w calls "priority"
          [("message", Json.str message),
            ("sendername", optStrJson (pyOrStr sn c.sender_name)),
            ("number", Json.str (commaJoin recipients))] := by
  simp [SemaphoreClient.priority, hmsg, hph]

theorem otp_eq_post (c : SemaphoreClient) (w : World) (calls : List NetCall)
    (recipients : List String) (message : Option String) (sn : Option String)
    (code : Option Json)
    (hph : recipients.all SemaphoreClient.validate_phone_format = true) :
    c.otp w calls recipients message sn code
      = c.post w calls "otp"
          [("message", optStrJson message),
            ("sendername", optStrJson (pyOrStr sn c.sender_name)),
            ("number", Json.str (commaJoin recipients)),
            ("code", code.getD Json.null)] := by
  simp [SemaphoreClient.otp, hph]

/-- Membership in a null-filtered parameter list rules out a null value. -/
theorem ne_null_of_mem_dropNullValues (d : List (String × Json))
    (p : String × Json) (h : p ∈ dropNullValues d) : p.2 ≠ Json.null := by
  have hp := (List.mem_filter.mp h).2
  intro hnull
  rw [hnull] at hp
  simp [Json.isNull] at hp

/-- The calls a client operation added to the history. -/
def newCalls (before after : List NetCall) : List NetCall :=
  after.drop before.length

theorem commaJoin_nil : commaJoin [] = "" := rfl

/-! ## Concrete fixtures used by the claim theorems -/

/-- A network whose every response is `200 {}` (an empty JSON object). -/
def emptyObjWorld : World :=
  ⟨fun _ _ => HttpOutcome.response { status_code := 200, body := Json.obj [], text := "{}" }⟩

/-- A network whose every response is `200` with a non-empty account object. -/
def account999World : World :=
  ⟨fun _ _ => HttpOutcome.response
    { status_code := 200,
      body := Json.obj [("credit_balance", Json.num 999)],
      text := "" }⟩

/-- The client built in the test suite setUp. -/
def demoClient : SemaphoreClient :=
  { api_key := "randomkey", sender_name := some "HELLO", _account := Json.null }

/-- A client whose default sender name is `DEFAULT`. -/
def defaultSenderClient : SemaphoreClient :=
  { api_key := "randomkey", sender_name := some "DEFAULT", _account := Json.null }

/-- A client with no sender name configured. -/
def noSenderClient : SemaphoreClient :=
  { api_key := "randomkey", sender_name := none, _account := Json.null }

/-! ## Claim theorems -/

/-- C1: the claim says the response interpreter raises `AuthorizationError`
on 401/403, `RateLimitError` on 429, `ServerError` on 5xx, generic `APIError`
on other statuses at least 400, and `NetworkError` wrapping the transport
exception on connection failure.  The code instead raises the base
`SemaphoreException` with a formatted message for every non-ok status, and a
transport exception propagates uncaught, wrapped in nothing.  Evaluating the
embedded `SemaphoreClient.request` at the failing inputs shows the actual
behavior. -/
theorem request_maps_every_error_to_base_exception :
    (SemaphoreClient.request
        (.response { status_code := 401, body := Json.null, text := "Unauthorized" })
      = .raisedSem (.semaphoreException "Request failed: HTTP 401 Unauthorized"))
    ∧ (SemaphoreClient.request
        (.response { status_code := 429, body := Json.null, text := "Too Many Requests" })
      = .raisedSem (.semaphoreException "Request failed: HTTP 429 Too Many Requests"))
    ∧ (SemaphoreClient.request
        (.response { status_code := 500, body := Json.null, text := "Internal Server Error" })
      = .raisedSem (.semaphoreException "Request failed: HTTP 500 Internal Server Error"))
    ∧ (SemaphoreClient.request (.raised "ConnectionError")
      = .raisedOther "ConnectionError") :=
  ⟨rfl, rfl, rfl, rfl⟩

/-- C2: the phone validator accepts a string if and only if, after removing
hyphens and stripping surrounding whitespace, the result is exactly 11 digits
starting with `09`, or `639` plus 9 digits (12 digits), or `+` followed by
`639` plus 9 digits. -/
theorem validate_phone_format_iff_spec (number : String) :
    SemaphoreClient.validate_phone_format number = true ↔
      phoneSpecAccepts (pyStripList (removeHyphens number.toList)) :=
  reMatchPhone_iff _

/-- C3: the claim says a batch with an invalid recipient fails with
`InvalidPhoneNumberError` carrying the full original recipient list, with
zero network calls.  The code does fail before any network call (the call
list stays empty), but it raises the base `SemaphoreException` carrying no
recipient list at all — not the `InvalidPhoneNumberError` subtype that
exceptions.py defines and documents for exactly this case.  All three batch
endpoints behave the same way. -/
theorem invalid_recipient_raises_untyped_exception :
    (demoClient.send emptyObjWorld []
        "Validation failure - will not get sent to Semaphore API"
        ["123", "639980202020"] (some "HELLO")
      = (PyResult.raisedSem (SemError.semaphoreException
          "You supplied an invalid Philippine phone number in `recipients`"),
          demoClient, []))
    ∧ (demoClient.priority emptyObjWorld []
        "Validation failure - will not get sent to Semaphore API"
        ["123", "639980202020"] (some "HELLO")
      = (PyResult.raisedSem (SemError.semaphoreException
          "You supplied an invalid Philippine phone number in `recipients`"),
          demoClient, []))
    ∧ (demoClient.otp emptyObjWorld [] ["123", "639980202020"] none none none
      = (PyResult.raisedSem (SemError.semaphoreException
          "You supplied an invalid Philippine phone number in `recipients`"),
          demoClient, [])) :=
  ⟨rfl, rfl, rfl⟩

/-- C4: the claim says a whitespace-only message fails with
`EmptyMessageError` before any network call for `send` and `priority`, while
`otp` skips the check.  The code does reject the blank message before any
call (the call list stays empty) and `otp` with an absent message does
dispatch (one call) — but the exception raised is the base
`SemaphoreException`, not the `EmptyMessageError` subtype that exceptions.py
defines and documents for this case. -/
theorem blank_message_raises_untyped_exception :
    (demoClient.send emptyObjWorld [] "   " ["09980101010"] none
      = (PyResult.raisedSem (SemError.semaphoreException "Cannot send a blank message"),
          demoClient, []))
    ∧ (demoClient.priority emptyObjWorld [] "" ["09980101010"] none
      = (PyResult.raisedSem (SemError.semaphoreException "Cannot send a blank message"),
          demoClient, []))
    ∧ ((demoClient.otp emptyObjWorld [] ["09980101010"] none none none).2.2.length = 1) :=
  ⟨rfl, rfl, rfl⟩

/-- C5: the claim says construction resolves credentials with
explicit-over-environment precedence and fails with `AuthenticationError`
when no non-empty API key is available.  The precedence and the
fail/succeed conditions hold, but the exception raised is the base
`SemaphoreException`, not the `AuthenticationError` subtype that
exceptions.py defines and documents for this case. -/
theorem missing_credentials_raises_untyped_exception :
    (SemaphoreClient.init none none ⟨none, none⟩
      = PyResult.raisedSem (SemError.semaphoreException
          "Credentials are required to create a SemaphoreClient"))
    ∧ (SemaphoreClient.init (some "") none ⟨some "", none⟩
      = PyResult.raisedSem (SemError.semaphoreException
          "Credentials are required to create a SemaphoreClient"))
    ∧ (SemaphoreClient.init (some "explicit") (some "EXPL") ⟨some "env", some "ENV"⟩
      = PyResult.ok { api_key := "explicit", sender_name := some "EXPL", _account := Json.null })
    ∧ (SemaphoreClient.init none none ⟨some "env", none⟩
      = PyResult.ok { api_key := "env", sender_name := none, _account := Json.null }) :=
  ⟨rfl, rfl, rfl, rfl⟩

/-- C8: the claim says a per-call `sender_name` passed to `send` overrides
the default in the outgoing POST body.  It does not: `post` writes
`sendername: self.sender_name` after spreading the per-call data, so the
client default always overwrites the per-call value — and when the client
has no default at all, the field is dropped from the body entirely even
though a per-call value was supplied.  The first conjunct shows the body of
a `send` with per-call `CUSTOM` carrying `DEFAULT`; the second shows the
field missing despite per-call `CUSTOM`. -/
theorem per_call_sendername_clobbered :
    ((defaultSenderClient.send emptyObjWorld [] "Hello" ["09171234567"] (some "CUSTOM")).2.2
      = [⟨"post", "messages",
          [("message", Json.str "Hello"), ("sendername", Json.str "DEFAULT"),
            ("number", Json.str "09171234567"), ("apikey", Json.str "randomkey")]⟩])
    ∧ ((noSenderClient.send emptyObjWorld [] "Hello" ["09171234567"] (some "CUSTOM")).2.2
      = [⟨"post", "messages",
          [("message", Json.str "Hello"),
            ("number", Json.str "09171234567"), ("apikey", Json.str "randomkey")]⟩]) :=
  ⟨rfl, rfl⟩

/-- C6 counterexample: with a network that answers the account endpoint with
status 200 and an empty JSON object, two consecutive account reads with no
intervening write issue two network calls, not at most one: the accessor
tests the cached snapshot with Python truthiness (`if not self._account`),
so a present-but-falsy snapshot is re-fetched on every read. -/
theorem account_empty_snapshot_double_fetch :
    ¬ ((readAccountN emptyObjWorld 2 demoClient []).2.length ≤ 1) := by
  have h : (readAccountN emptyObjWorld 2 demoClient []).2.length = 2 := rfl
  rw [h]
  decide

/-- C6 (amended): the account accessor returns the cached snapshot when one
is present and truthy, and otherwise fetches, stores and returns it; over any
read-only sequence, at most one account network call is issued provided the
fetched snapshots are truthy (for instance non-empty mappings).  A falsy
snapshot, such as an empty mapping, is treated as absent and re-fetched. -/
theorem account_reads_single_fetch_of_truthy (w : World)
    (hw : ∀ h call, truthyOutcome (w.oracle h call)) (n : Nat)
    (c : SemaphoreClient) (calls : List NetCall) :
    (readAccountN w n c calls).2.length ≤ calls.length + 1 := by
  cases n with
  | zero => simp [readAccountN]
  | succ n =>
      obtain ⟨h1, h2⟩ := account_step w hw c calls
      show (readAccountN w n (SemaphoreClient.account c w calls).2.1
        (SemaphoreClient.account c w calls).2.2).2.length ≤ calls.length + 1
      rw [readAccountN_cached w n _ _ h1]
      exact h2

theorem account_reads_single_fetch_of_truthy_witness :
    (readAccountN account999World 3 demoClient []).2.length ≤ 1 :=
  account_reads_single_fetch_of_truthy account999World
    (fun _ _ => ⟨by decide, by decide⟩) 3 demoClient []

/-- C7: every mutating operation that reaches dispatch leaves the client
with an empty account cache, so the account read that follows always issues
a fresh network call (whatever the network answers) and cannot return the
pre-write snapshot.  In the source the cache is cleared just before the POST
is dispatched, which makes the invalidation hold even when the dispatch
itself raises. -/
theorem mutating_ops_invalidate_account_cache
    (w : World) (c : SemaphoreClient) (calls : List NetCall)
    (message : String) (recipients : List String) (sn : Option String)
    (code : Option Json)
    (hmsg : (pyStrip message == "") = false)
    (hph : recipients.all SemaphoreClient.validate_phone_format = true) :
    invalidatedThenRefetches w (c.send w calls message recipients sn)
    ∧ invalidatedThenRefetches w (c.priority w calls message recipients sn)
    ∧ invalidatedThenRefetches w (c.otp w calls recipients (some message) sn code) := by
  refine ⟨?_, ?_, ?_⟩
  · rw [send_eq_post c w calls message recipients sn hmsg hph]
    exact post_invalidates_out w c calls _ _
  · rw [priority_eq_post c w calls message recipients sn hmsg hph]
    exact post_invalidates_out w c calls _ _
  · rw [otp_eq_post c w calls recipients (some message) sn code hph]
    exact post_invalidates_out w c calls _ _

theorem mutating_ops_invalidate_account_cache_witness :
    invalidatedThenRefetches emptyObjWorld
        (demoClient.send emptyObjWorld [] "hello" ["09171234567"] none)
    ∧ invalidatedThenRefetches emptyObjWorld
        (demoClient.priority emptyObjWorld [] "hello" ["09171234567"] none)
    ∧ invalidatedThenRefetches emptyObjWorld
        (demoClient.otp emptyObjWorld [] ["09171234567"] (some "hello") none none) :=
  mutating_ops_invalidate_account_cache emptyObjWorld demoClient []
    "hello" ["09171234567"] none none (by decide) (by decide)

/-- C9: every outgoing parameter set is null-filtered before transmission —
no call issued by `get` or `post` carries a null-valued parameter — and
`messages()` with no filters issues a single GET whose outgoing query holds
only the `apikey` key. -/
theorem null_params_dropped :
    (∀ (c : SemaphoreClient) (w : World) (calls : List NetCall) (uri : String)
        (params : List (String × Json)) (call : NetCall) (p : String × Json),
        call ∈ newCalls calls (c.get w calls uri params).2 → p ∈ call.params →
          p.2 ≠ Json.null)
    ∧ (∀ (c : SemaphoreClient) (w : World) (calls : List NetCall) (uri : String)
        (data : List (String × Json)) (call : NetCall) (p : String × Json),
        call ∈ newCalls calls (c.post w calls uri data).2.2 → p ∈ call.params →
          p.2 ≠ Json.null)
    ∧ (∀ (c : SemaphoreClient) (w : World) (calls : List NetCall),
        (c.messages w calls none none none none none none none).2
          = calls ++ [⟨"get", "messages", [("apikey", Json.str c.api_key)]⟩]) := by
  refine ⟨?_, ?_, ?_⟩
  · intro c w calls uri params call p hcall hp
    have hsing : newCalls calls (c.get w calls uri params).2
        = [⟨"get", uri, dropNullValues (dictSet params "apikey" (Json.str c.api_key))⟩] := by
      show ((calls ++ [_]).drop calls.length) = _
      rw [List.drop_left]
    rw [hsing] at hcall
    rw [List.mem_singleton.mp hcall] at hp
    exact ne_null_of_mem_dropNullValues _ p hp
  · intro c w calls uri data call p hcall hp
    have hsing : newCalls calls (c.post w calls uri data).2.2
        = [⟨"post", uri, dropNullValues (dictSet (dictSet data "apikey" (Json.str c.api_key))
            "sendername" (optStrJson c.sender_name))⟩] := by
      show ((calls ++ [_]).drop calls.length) = _
      rw [List.drop_left]
    rw [hsing] at hcall
    rw [List.mem_singleton.mp hcall] at hp
    exact ne_null_of_mem_dropNullValues _ p hp
  · intro c w calls
    rfl

theorem null_params_dropped_witness :
    (("apikey", Json.str "randomkey") : String × Json).2 ≠ Json.null :=
  null_params_dropped.1 demoClient emptyObjWorld [] "messages"
    [("page", Json.null)]
    ⟨"get", "messages", [("apikey", Json.str "randomkey")]⟩
    ("apikey", Json.str "randomkey")
    (List.mem_singleton_self _) (List.mem_singleton_self _)

/-- C10: `send` and `priority` with a non-blank message and an empty
recipient list pass phone validation vacuously and dispatch the POST, whose
`number` field is the empty string (the comma-join of no recipients): the
validators never require the recipient list itself to be non-empty. -/
theorem empty_recipients_still_dispatch
    (c : SemaphoreClient) (w : World) (calls : List NetCall) (message : String)
    (sn : Option String) (hmsg : (pyStrip message == "") = false) :
    ((c.send w calls message [] sn).2.2.length = calls.length + 1
      ∧ ((c.send w calls message [] sn).2.2.getLast?).map
          (fun call => (call.method, call.uri, dictGet call.params "number"))
          = some ("post", "messages", some (Json.str "")))
    ∧ ((c.priority w calls message [] sn).2.2.length = calls.length + 1
      ∧ ((c.priority w calls message [] sn).2.2.getLast?).map
          (fun call => (call.method, call.uri, dictGet call.params "number"))
          = some ("post", "priority", some (Json.str ""))) := by
  rw [send_eq_post c w calls message [] sn hmsg rfl,
    priority_eq_post c w calls message [] sn hmsg rfl]
  cases hsn : c.sender_name with
  | none =>
      refine ⟨⟨?_, ?_⟩, ?_, ?_⟩ <;>
        simp [SemaphoreClient.post, World.dispatch, hsn, List.getLast?_concat,
          dictSet, dropNullValues, dictGet, Json.isNull, optStrJson, commaJoin_nil]
  | some s =>
      refine ⟨⟨?_, ?_⟩, ?_, ?_⟩ <;>
        simp [SemaphoreClient.post, World.dispatch, hsn, List.getLast?_concat,
          dictSet, dropNullValues, dictGet, Json.isNull, optStrJson, commaJoin_nil]

theorem empty_recipients_still_dispatch_witness :
    ((demoClient.send emptyObjWorld [] "hi" [] none).2.2.length = 1
      ∧ ((demoClient.send emptyObjWorld [] "hi" [] none).2.2.getLast?).map
          (fun call => (call.method, call.uri, dictGet call.params "number"))
          = some ("post", "messages", some (Json.str "")))
    ∧ ((demoClient.priority emptyObjWorld [] "hi" [] none).2.2.length = 1
      ∧ ((demoClient.priority emptyObjWorld [] "hi" [] none).2.2.getLast?).map
          (fun call => (call.method, call.uri, dictGet call.params "number"))
          = some ("post", "priority", some (Json.str ""))) :=
  empty_recipients_still_dispatch demoClient emptyObjWorld [] "hi" none (by decide)

end SemaphoreSms
